import Mathlib

/-!
Verification of the trend-following trading core (strategy platform).

This file gives a shallow embedding, in Lean 4, of the decision kernel of the
repository: the trend-exhaustion predicate, the Donchian-high feature, the
LTF ADX-history builder, the HTF-to-LTF time aligner, the strategy signal
function, the position store state machine, the v5 risk manager, and the
backtest execution-exit accounting.  Prices and rates are modelled as
rationals (the source uses IEEE doubles but performs only field arithmetic
and comparisons on them), JavaScript `undefined` as `Option.none`, and
JavaScript truthiness of numbers (`x || d`) by an explicit helper that treats
zero as falsy.  Each definition is a direct transcription of the
corresponding TypeScript function.
-/

/-- Position side: the system currently only opens LONG positions, SHORT is
reserved in the data model. -/
inductive PositionSide where
  | LONG
  | SHORT
deriving DecidableEq, Repr

/-- Trailing-stop mode: EMA20 (default) or EMA50 (profit-lock). -/
inductive TrailingMode where
  | EMA20
  | EMA50
deriving DecidableEq, Repr

/-- Trade reasons used by the risk manager, strategy and execution. -/
inductive TradeReason where
  | TREND_INVALIDATED
  | STOP_LOSS_INITIAL
  | STOP_LOSS_BREAK_EVEN
  | TRAILING_STOP
  | TRAILING_STOP_HIT
  | MANUAL_EXIT
  | HTF_BULL_TREND_CONFIRMED
  | HTF_BULL_BREAKOUT_CONFIRMED
deriving DecidableEq, Repr

/-- Position state of the store finite state machine. -/
inductive PositionState where
  | FLAT
  | OPEN
  | CLOSING
deriving DecidableEq, Repr

/-- OHLCV bar (kline).  Only the fields the verified code reads are kept. -/
structure Kline where
  openTime : Int
  closeTime : Int
  high : Rat
  low : Rat
  close : Rat
deriving DecidableEq, Repr

/-- Position record of the state machine (types.ts, `interface Position`). -/
structure Position where
  side : PositionSide
  entryPrice : Rat
  initialStopLoss : Rat
  stopLoss : Rat
  trailingStop : Option Rat
  size : Rat
  entryTime : Int
  isTrailingActive : Bool
  maxUnrealizedR : Rat
  trailingMode : Option TrailingMode
  reason : Option TradeReason
deriving DecidableEq, Repr

/-- HTF (4h) indicator record; every field is absent during warm-up. -/
structure HTFIndicatorData where
  ema50 : Option Rat
  ema200 : Option Rat
  adx : Option Rat
deriving DecidableEq, Repr

/-- LTF (1h) indicator record; fields are absent during warm-up. -/
structure LTFIndicatorData where
  ema20 : Option Rat
  ema50 : Option Rat
  adx : Option Rat
  adx_1h_series : Option (List Rat)
  atr : Option Rat
  donchianHigh : Option Rat
deriving DecidableEq, Repr

/-- Risk-section of the instance configuration (config.ts). -/
structure RiskConfig where
  maxRiskPerTrade : Rat
  initialStopPct : Rat
  breakEvenR : Rat
  trailingActivationR : Rat
  trendExhaustADX : Option Rat
  trendExhaustBars : Option Nat
  profitLockR : Option Rat
deriving DecidableEq, Repr

/-- JavaScript `o || d` on an optional number: `undefined` and `0` both fall
back to the default. -/
def jsOrQ (o : Option Rat) (d : Rat) : Rat :=
  match o with
  | none => d
  | some x => if x = 0 then d else x

/-- JavaScript truthiness of an optional number: defined and nonzero. -/
def jsTruthyQ (o : Option Rat) : Bool :=
  match o with
  | none => false
  | some x => decide (x ≠ 0)

/-- JavaScript truthiness of an optional natural number. -/
def jsTruthyNat (o : Option Nat) : Bool :=
  match o with
  | none => false
  | some n => decide (n ≠ 0)

/-- Loop of `isTrendExhausted`: the values are consecutively strictly
declining (`recent[i] >= recent[i-1]` anywhere returns false). -/
def consecStrictlyDecreasing : List Rat → Bool
  | [] => true
  | [_] => true
  | a :: b :: rest => decide (b < a) && consecStrictlyDecreasing (b :: rest)

/-- Transcription of `isTrendExhausted` (core/risk/riskManager.ts).
`adxSeries.slice(-bars - 1)` keeps the last `bars + 1` elements; the current
ADX (last element) must lie strictly below the threshold and the window must
be strictly declining. -/
def isTrendExhausted (adxSeries : List Rat) (threshold : Rat) (bars : Nat) : Bool :=
  if adxSeries.length < bars + 1 then false
  else
    let recent := adxSeries.drop (adxSeries.length - (bars + 1))
    match recent.getLast? with
    | none => false
    | some last => if threshold ≤ last then false else consecStrictlyDecreasing recent

theorem consecStrictlyDecreasing_iff_chain (l : List Rat) :
    consecStrictlyDecreasing l = true ↔ List.Chain' (fun a b => b < a) l := by
  induction l with
  | nil => simp [consecStrictlyDecreasing]
  | cons a t ih =>
    cases t with
    | nil => simp [consecStrictlyDecreasing]
    | cons b r =>
      simp only [consecStrictlyDecreasing, Bool.and_eq_true, decide_eq_true_eq,
        List.chain'_cons] at ih ⊢
      rw [ih]

theorem getLast?_drop_of_lt (l : List Rat) (n : Nat) (h : n < l.length) :
    (l.drop n).getLast? = l.getLast? := by
  induction l generalizing n with
  | nil => simp at h
  | cons a t ih =>
    cases n with
    | zero => simp
    | succ m =>
      simp only [List.length_cons, Nat.succ_lt_succ_iff] at h
      have ht : t ≠ [] := by
        intro he
        subst he
        simp at h
      rw [List.drop_succ_cons, ih m h, List.getLast?_cons, List.getLast?_eq_getLast _ ht]
      simp

/-- C2.  The trend-exhaustion predicate `isTrendExhausted(A, τ, k)` returns
false on histories shorter than `k + 1`; otherwise it returns true exactly
when the last element of `A` is strictly below `τ` and the last `k + 1`
elements are strictly monotonically decreasing (any tie fails). -/
theorem isTrendExhausted_spec (A : List Rat) (τ : Rat) (k : Nat) :
    isTrendExhausted A τ k = true ↔
      k + 1 ≤ A.length ∧ (∃ x, A.getLast? = some x ∧ x < τ) ∧
        List.Chain' (fun a b => b < a) (A.drop (A.length - (k + 1))) := by
  unfold isTrendExhausted
  by_cases hlen : A.length < k + 1
  · simp only [hlen, if_true]
    constructor
    · intro h
      exact absurd h (by simp)
    · rintro ⟨hle, -, -⟩
      omega
  · simp only [hlen, if_false]
    push_neg at hlen
    have hA : A ≠ [] := by
      intro he
      subst he
      simp at hlen
    have hdroplt : A.length - (k + 1) < A.length := by omega
    rw [getLast?_drop_of_lt A _ hdroplt, List.getLast?_eq_getLast A hA]
    constructor
    · intro h
      by_cases hthr : τ ≤ A.getLast hA
      · simp [hthr] at h
      · simp only [hthr, if_false] at h
        push_neg at hthr
        exact ⟨hlen, ⟨A.getLast hA, rfl, hthr⟩, (consecStrictlyDecreasing_iff_chain _).mp h⟩
    · rintro ⟨-, ⟨x, hx, hxτ⟩, hchain⟩
      have hxe : x = A.getLast hA := by
        injection hx with hv
        exact hv.symm
      subst hxe
      have hthr : ¬ τ ≤ A.getLast hA := not_le.mpr hxτ
      simp only [hthr, if_false]
      exact (consecStrictlyDecreasing_iff_chain _).mpr hchain

/-- Transcription of `getDonchianHigh` (data/cache.ts).  `start` is
`Math.max(0, currentIndex - lookback)` (natural subtraction), the slice
`klines.slice(start, currentIndex)` is `drop start` then `take
(currentIndex - start)`, and `Math.max` over the highs is a left fold. -/
def getDonchianHigh (klines : List Kline) (lookback : Nat) (currentIndex : Nat) : Option Rat :=
  if currentIndex ≤ currentIndex - lookback ∨ currentIndex = 0 then none
  else
    let historicalBars :=
      (klines.drop (currentIndex - lookback)).take (currentIndex - (currentIndex - lookback))
    match historicalBars.map (fun k => k.high) with
    | [] => none
    | h :: hs => some (hs.foldl max h)

/-- Transcription of the `adxHistory` loop of `buildLTFIndicators`
(data/cache.ts): for `j` from `max(0, i - 10)` to `i - 1`, push `adxSeries[j]`
when it is not NaN.  NaN entries of the series are modelled as `none`. -/
def adxHistoryAt (adxSeries : List (Option Rat)) (i : Nat) : List Rat :=
  if i = 0 then []
  else (List.range' (i - 10) (i - (i - 10))).filterMap (fun j =>
    match adxSeries.get? j with
    | some (some x) => some x
    | _ => none)

/-- Transcription of `adx_1h_series: adxHistory.length > 0 ? adxHistory :
undefined` in `buildLTFIndicators`. -/
def attachAdxHistory (adxSeries : List (Option Rat)) (i : Nat) : Option (List Rat) :=
  if (adxHistoryAt adxSeries i).isEmpty then none else some (adxHistoryAt adxSeries i)

theorem foldl_max_spec (hs : List Rat) (h : Rat) :
    (∀ x ∈ hs, x ≤ hs.foldl max h) ∧ h ≤ hs.foldl max h ∧
      (hs.foldl max h = h ∨ hs.foldl max h ∈ hs) := by
  induction hs generalizing h with
  | nil => exact ⟨by simp, le_refl h, Or.inl rfl⟩
  | cons b t ih =>
    refine ⟨?_, ?_, ?_⟩
    · intro x hx
      rcases List.mem_cons.mp hx with hxb | hxt
      · subst hxb
        exact le_trans (le_max_right h x) (ih (max h x)).2.1
      · exact (ih (max h b)).1 x hxt
    · exact le_trans (le_max_left h b) (ih (max h b)).2.1
    · rcases (ih (max h b)).2.2 with heq | hmem
      · rw [List.foldl_cons, heq]
        rcases max_choice h b with hh | hb
        · exact Or.inl hh
        · exact Or.inr (by rw [hb]; exact List.mem_cons_self b t)
      · exact Or.inr (List.mem_cons_of_mem b hmem)

/-- Demo bars used as concrete inputs. -/
def demoBar0 : Kline := { openTime := 0, closeTime := 3600, high := 5, low := 1, close := 4 }

def demoBar1 : Kline := { openTime := 3600, closeTime := 7200, high := 7, low := 2, close := 6 }

def demoBar2 : Kline := { openTime := 7200, closeTime := 10800, high := 9, low := 3, close := 8 }

def demoKlines : List Kline := [demoBar0, demoBar1]

/-- C4 counterexample.  With a Donchian lookback of `N = 20`, bar index `1`
has only one strictly preceding bar (fewer than `N`), yet `getDonchianHigh`
returns the high of that single bar instead of `undefined`. -/
theorem getDonchianHigh_defined_below_lookback :
    (1 : Nat) < 20 ∧ getDonchianHigh demoKlines 20 1 = some 5 := by
  constructor
  · decide
  · rfl

/-- C4 (amended).  `getDonchianHigh(klines, N, i)` is undefined when `N = 0`
or `i = 0`; for `N ≥ 1`, `1 ≤ i ≤ klines.length` it is defined and equals the
maximum of `high` over the `min(N, i)` bars strictly preceding bar `i`
(the window `(klines.take i).drop (i - N)`), even when fewer than `N`
predecessors exist. -/
theorem getDonchianHigh_window_max (klines : List Kline) (N i : Nat) :
    getDonchianHigh klines 0 i = none ∧ getDonchianHigh klines N 0 = none ∧
      (1 ≤ N → 1 ≤ i → i ≤ klines.length →
        ∃ m, getDonchianHigh klines N i = some m ∧
          (∀ b ∈ (klines.take i).drop (i - N), b.high ≤ m) ∧
          ∃ b ∈ (klines.take i).drop (i - N), b.high = m) := by
  refine ⟨?_, ?_, ?_⟩
  · unfold getDonchianHigh
    simp
  · unfold getDonchianHigh
    simp
  · intro hN hi hlen
    have hcond : ¬ (i ≤ i - N ∨ i = 0) := by omega
    have hwin : (klines.take i).drop (i - N) =
        (klines.drop (i - N)).take (i - (i - N)) := by
      rw [List.drop_take]
    have hlenwin : 1 ≤ ((klines.drop (i - N)).take (i - (i - N))).length := by
      rw [List.length_take, List.length_drop]
      omega
    unfold getDonchianHigh
    simp only [hcond, if_false]
    rcases hw : (klines.drop (i - N)).take (i - (i - N)) with - | ⟨b, rest⟩
    · rw [hw] at hlenwin
      simp at hlenwin
    · rw [hw] at hwin
      refine ⟨(rest.map (fun k => k.high)).foldl max b.high, ?_, ?_, ?_⟩
      · simp [hw]
      · intro b2 hb2
        rw [hwin] at hb2
        rcases List.mem_cons.mp hb2 with hb | hb
        · subst hb
          exact (foldl_max_spec _ _).2.1
        · exact (foldl_max_spec _ _).1 _ (List.mem_map_of_mem (fun k => k.high) hb)
      · rcases (foldl_max_spec (rest.map (fun k => k.high)) b.high).2.2 with heq | hmem
        · exact ⟨b, by rw [hwin]; exact List.mem_cons_self b rest, heq.symm⟩
        · rcases List.mem_map.mp hmem with ⟨b2, hb2, hb2h⟩
          exact ⟨b2, by rw [hwin]; exact List.mem_cons_of_mem b hb2, hb2h⟩

/-- C4 amended-theorem witness at a concrete input. -/
theorem getDonchianHigh_window_max_witness :
    ∃ m, getDonchianHigh demoKlines 20 2 = some m ∧
      (∀ b ∈ (demoKlines.take 2).drop (2 - 20), b.high ≤ m) ∧
      ∃ b ∈ (demoKlines.take 2).drop (2 - 20), b.high = m :=
  (getDonchianHigh_window_max demoKlines 20 2).2.2 (by decide) (by decide) (by decide)

theorem getDonchianHigh_take_eq (klines klines2 : List Kline) (N i : Nat)
    (h : klines.take i = klines2.take i) :
    getDonchianHigh klines N i = getDonchianHigh klines2 N i := by
  unfold getDonchianHigh
  have hslice : (klines.drop (i - N)).take (i - (i - N)) =
      (klines2.drop (i - N)).take (i - (i - N)) := by
    rw [← List.drop_take, ← List.drop_take, h]
  rw [hslice]

theorem adxHistoryAt_take_eq (s s2 : List (Option Rat)) (i : Nat)
    (h : s.take i = s2.take i) :
    adxHistoryAt s i = adxHistoryAt s2 i := by
  unfold adxHistoryAt
  by_cases hi : i = 0
  · simp [hi]
  · simp only [hi, if_false]
    refine List.filterMap_congr ?_
    intro j hj
    have hji : j < i := by
      have := List.mem_range'_1.mp hj
      omega
    have hg : s.get? j = s2.get? j := by
      have h1 : (s.take i).get? j = s.get? j := List.get?_take hji
      have h2 : (s2.take i).get? j = s2.get? j := List.get?_take hji
      rw [← h1, ← h2, h]
    rw [hg]

theorem adxHistoryAt_mem_source (s : List (Option Rat)) (i : Nat) (x : Rat)
    (hx : x ∈ adxHistoryAt s i) : ∃ j, j < i ∧ s.get? j = some (some x) := by
  unfold adxHistoryAt at hx
  by_cases hi : i = 0
  · simp [hi] at hx
  · simp only [hi, if_false] at hx
    rcases List.mem_filterMap.mp hx with ⟨j, hj, hfj⟩
    have hji : j < i := by
      have := List.mem_range'_1.mp hj
      omega
    refine ⟨j, hji, ?_⟩
    rcases hg : s.get? j with - | v
    · rw [hg] at hfj
      simp at hfj
    · rcases v with - | y
      · rw [hg] at hfj
        simp at hfj
      · rw [hg] at hfj
        simp only [Option.some.injEq] at hfj
        rw [hfj]

/-- C5.  Lookahead discipline of the LTF feature builder: `getDonchianHigh`
at bar `i` depends only on the bars with index strictly below `i` (replacing
every bar from index `i` on leaves it unchanged); the ADX history attached to
bar `i` likewise depends only on the ADX prefix strictly before `i`, and each
of its values is the ADX of some bar `j < i` — never of bar `i` itself. -/
theorem ltf_features_no_lookahead :
    (∀ (klines klines2 : List Kline) (N i : Nat), klines.take i = klines2.take i →
      getDonchianHigh klines N i = getDonchianHigh klines2 N i) ∧
    (∀ (s s2 : List (Option Rat)) (i : Nat), s.take i = s2.take i →
      attachAdxHistory s i = attachAdxHistory s2 i) ∧
    (∀ (s : List (Option Rat)) (i : Nat) (hist : List Rat) (x : Rat),
      attachAdxHistory s i = some hist → x ∈ hist →
        ∃ j, j < i ∧ s.get? j = some (some x)) := by
  refine ⟨getDonchianHigh_take_eq, ?_, ?_⟩
  · intro s s2 i h
    unfold attachAdxHistory
    rw [adxHistoryAt_take_eq s s2 i h]
  · intro s i hist x hhist hx
    unfold attachAdxHistory at hhist
    by_cases he : (adxHistoryAt s i).isEmpty
    · simp [he] at hhist
    · rw [Bool.not_eq_true] at he
      simp only [he, Bool.false_eq_true, if_false, Option.some.injEq] at hhist
      subst hhist
      exact adxHistoryAt_mem_source s i x hx

/-- C5 witness: concrete lists agreeing on the prefix below the bar index. -/
theorem ltf_features_no_lookahead_witness :
    getDonchianHigh demoKlines 20 1 = getDonchianHigh (demoKlines ++ [demoBar2]) 20 1 ∧
      attachAdxHistory [some 1, some 2, none] 2 = attachAdxHistory [some 1, some 2, some 99] 2 ∧
      ∃ j, j < 2 ∧ ([some 1, some 2, none] : List (Option Rat)).get? j = some (some 2) :=
  ⟨ltf_features_no_lookahead.1 demoKlines (demoKlines ++ [demoBar2]) 20 1 (by decide),
   ltf_features_no_lookahead.2.1 [some 1, some 2, none] [some 1, some 2, some 99] 2 (by decide),
   ltf_features_no_lookahead.2.2 [some 1, some 2, none] 2 [1, 2] 2 (by decide) (by decide)⟩

/-- All-undefined HTF feature record used during warm-up. -/
def defaultHTFRecord : HTFIndicatorData := { ema50 := none, ema200 := none, adx := none }

/-- Downward scan of `alignHTFIndicatorsToLTF` (timeAlignmentService.ts):
`for (let i = htfKlines.length - 1; i >= 0; i--)` returning the first index
whose bar closed at or before `t`. -/
def scanForMatch (htfKlines : List Kline) (t : Int) : Nat → Option Nat
  | 0 => none
  | n + 1 =>
    match htfKlines.get? n with
    | some b => if b.closeTime ≤ t then some n else scanForMatch htfKlines t n
    | none => scanForMatch htfKlines t n

/-- Transcription of `alignHTFIndicatorsToLTF`: for each LTF bar, the HTF
indicator record at the matched index, or the all-undefined record. -/
def alignHTFIndicatorsToLTF (ltfKlines htfKlines : List Kline)
    (htfIndicators : List HTFIndicatorData) : List HTFIndicatorData :=
  ltfKlines.map (fun ltfBar =>
    match scanForMatch htfKlines ltfBar.openTime htfKlines.length with
    | some i => (htfIndicators.get? i).getD defaultHTFRecord
    | none => defaultHTFRecord)

theorem scanForMatch_some (htf : List Kline) (t : Int) (n i : Nat)
    (h : scanForMatch htf t n = some i) :
    i < n ∧ (∃ b, htf.get? i = some b ∧ b.closeTime ≤ t) := by
  induction n with
  | zero => simp [scanForMatch] at h
  | succ m ih =>
    unfold scanForMatch at h
    rcases hg : htf.get? m with - | b
    · rw [hg] at h
      rcases ih h with ⟨h1, h2⟩
      exact ⟨Nat.lt_succ_of_lt h1, h2⟩
    · rw [hg] at h
      by_cases hc : b.closeTime ≤ t
      · simp only [hc, if_true, Option.some.injEq] at h
        subst h
        exact ⟨Nat.lt_succ_self _, ⟨b, hg, hc⟩⟩
      · simp only [hc, if_false] at h
        rcases ih h with ⟨h1, h2⟩
        exact ⟨Nat.lt_succ_of_lt h1, h2⟩

theorem scanForMatch_eq_some (htf : List Kline) (t : Int) (n i : Nat) (b : Kline)
    (hin : i < n) (hget : htf.get? i = some b) (hle : b.closeTime ≤ t)
    (habove : ∀ j bj, i < j → htf.get? j = some bj → ¬ bj.closeTime ≤ t) :
    scanForMatch htf t n = some i := by
  induction n with
  | zero => omega
  | succ m ih =>
    unfold scanForMatch
    by_cases him : i = m
    · subst him
      rw [hget]
      simp [hle]
    · have hlt : i < m := by omega
      rcases hg : htf.get? m with - | bm
      · exact ih hlt
      · have : ¬ bm.closeTime ≤ t := habove m bm hlt hg
        simp only [this, if_false]
        exact ih hlt

/-- C7.  The time aligner yields one record per LTF bar; for each LTF bar
it assigns the HTF indicator record of the greatest-index (most recent) HTF
bar whose `closeTime ≤ ltf.openTime` — so every aligned record's source HTF
bar closed at or before the LTF bar opened — and the all-undefined record
when no HTF bar closed that early. -/
theorem alignHTFIndicatorsToLTF_spec (ltf htf : List Kline) (ind : List HTFIndicatorData) :
    (alignHTFIndicatorsToLTF ltf htf ind).length = ltf.length ∧
    ∀ j bj, ltf.get? j = some bj →
      ((∀ i bi, htf.get? i = some bi → ¬ bi.closeTime ≤ bj.openTime) →
        (alignHTFIndicatorsToLTF ltf htf ind).get? j = some defaultHTFRecord) ∧
      (∀ i bi, htf.get? i = some bi → bi.closeTime ≤ bj.openTime →
        (∀ i2 bi2, i < i2 → htf.get? i2 = some bi2 → ¬ bi2.closeTime ≤ bj.openTime) →
        (alignHTFIndicatorsToLTF ltf htf ind).get? j =
          some ((ind.get? i).getD defaultHTFRecord)) := by
  constructor
  · exact List.length_map ltf _
  · intro j bj hj
    constructor
    · intro hnone
      unfold alignHTFIndicatorsToLTF
      rw [List.get?_map, hj, Option.map_some']
      rcases hscan : scanForMatch htf bj.openTime htf.length with - | i
      · simp [hscan]
      · rcases scanForMatch_some htf bj.openTime htf.length i hscan with ⟨-, b, hb, hble⟩
        exact absurd hble (hnone i b hb)
    · intro i bi hbi hle habove
      unfold alignHTFIndicatorsToLTF
      rw [List.get?_map, hj, Option.map_some']
      have hin : i < htf.length := by
        rcases List.get?_eq_some.mp hbi with ⟨hlt, -⟩
        exact hlt
      have hscan := scanForMatch_eq_some htf bj.openTime htf.length i bi hin hbi hle
        (fun j2 bj2 hij2 hg => habove j2 bj2 hij2 hg)
      simp [hscan]

/-- C7 witness at concrete bars: the second HTF bar (closeTime 7200) is the
most recent one closing at or before the LTF bar opening at 7200. -/
theorem alignHTFIndicatorsToLTF_spec_witness :
    (alignHTFIndicatorsToLTF [demoBar2] [demoBar0, demoBar1] [defaultHTFRecord,
        { ema50 := some 3, ema200 := some 2, adx := some 30 }]).get? 0 =
      some (((([defaultHTFRecord, { ema50 := some 3, ema200 := some 2, adx := some 30 }] :
        List HTFIndicatorData)).get? 1).getD defaultHTFRecord) :=
  ((alignHTFIndicatorsToLTF_spec [demoBar2] [demoBar0, demoBar1] _).2 0 demoBar2
    (by decide)).2 1 demoBar1 (by decide) (by decide)
    (by
      intro i2 bi2 hi2 hg
      rcases List.get?_eq_some.mp hg with ⟨hlt, -⟩
      simp at hlt
      omega)

/-- HTF trend regime. -/
inductive HTFTrendState where
  | BULL
  | RANGE
  | BEAR
deriving DecidableEq, Repr

/-- Strategy signal kind. -/
inductive SignalType where
  | ENTRY
  | EXIT
  | HOLD
deriving DecidableEq, Repr

/-- Strategy signal (types.ts `StrategySignal`). -/
structure StrategySignal where
  type : SignalType
  side : Option PositionSide
  reason : Option TradeReason
deriving DecidableEq, Repr

/-- Plain HOLD signal. -/
def holdSignal : StrategySignal := { type := SignalType.HOLD, side := none, reason := none }

/-- Transcription of `getHTFTrendState` (core/strategy/trendStrategy.ts):
BULL iff EMA50 > EMA200 and ADX > 20, RANGE otherwise or on missing data. -/
def getHTFTrendState (h : HTFIndicatorData) : HTFTrendState :=
  match h.ema50, h.ema200, h.adx with
  | some e50, some e200, some adx =>
    if e200 < e50 ∧ 20 < adx then HTFTrendState.BULL else HTFTrendState.RANGE
  | _, _, _ => HTFTrendState.RANGE

/-- Transcription of `trendStrategy` (core/strategy/trendStrategy.ts). -/
def trendStrategy (bar : Kline) (htfIndicator : HTFIndicatorData)
    (ltfIndicator : LTFIndicatorData) (positionState : PositionState) : StrategySignal :=
  match ltfIndicator.ema20, ltfIndicator.ema50, ltfIndicator.adx with
  | some ema20, some ema50, some adx1h =>
    match htfIndicator.ema50, htfIndicator.ema200, htfIndicator.adx with
    | some _, some _, some _ =>
      if positionState = PositionState.OPEN then holdSignal
      else if positionState = PositionState.FLAT then
        match ltfIndicator.donchianHigh with
        | some donchianHigh =>
          if getHTFTrendState htfIndicator = HTFTrendState.BULL ∧ 25 < adx1h ∧
              ema50 < ema20 ∧ donchianHigh < bar.close then
            { type := SignalType.ENTRY, side := some PositionSide.LONG,
              reason := some TradeReason.HTF_BULL_BREAKOUT_CONFIRMED }
          else holdSignal
        | none => holdSignal
      else holdSignal
    | _, _, _ => holdSignal
  | _, _, _ => holdSignal

set_option maxHeartbeats 2000000 in
/-- C6.  The strategy returns ENTRY(LONG, HTF_BULL_BREAKOUT_CONFIRMED)
exactly when the state is FLAT, all required HTF and LTF fields are defined,
the HTF regime is BULL (`ema_medium > ema_long` and `adx > 20`),
`ltf.adx > 25`, `ltf.ema_short > ltf.ema_medium` and
`bar.close > donchian_high`; in every other case it returns HOLD, and it
never returns an EXIT signal. -/
theorem trendStrategy_entry_iff (bar : Kline) (htf : HTFIndicatorData)
    (ltf : LTFIndicatorData) (st : PositionState) :
    (trendStrategy bar htf ltf st =
        { type := SignalType.ENTRY, side := some PositionSide.LONG,
          reason := some TradeReason.HTF_BULL_BREAKOUT_CONFIRMED } ↔
      st = PositionState.FLAT ∧
        ∃ l20 l50 ladx dh h50 h200 hadx,
          ltf.ema20 = some l20 ∧ ltf.ema50 = some l50 ∧ ltf.adx = some ladx ∧
          ltf.donchianHigh = some dh ∧ htf.ema50 = some h50 ∧ htf.ema200 = some h200 ∧
          htf.adx = some hadx ∧ h200 < h50 ∧ 20 < hadx ∧ 25 < ladx ∧ l50 < l20 ∧
          dh < bar.close) ∧
    (trendStrategy bar htf ltf st).type ≠ SignalType.EXIT ∧
    (trendStrategy bar htf ltf st =
        { type := SignalType.ENTRY, side := some PositionSide.LONG,
          reason := some TradeReason.HTF_BULL_BREAKOUT_CONFIRMED } ∨
      trendStrategy bar htf ltf st = holdSignal) := by
  obtain ⟨l20o, l50o, ladxo, serO, atrO, dhO⟩ := ltf
  obtain ⟨h50o, h200o, hadxo⟩ := htf
  rcases l20o with - | l20 <;>
    rcases l50o with - | l50 <;>
    rcases ladxo with - | ladx <;>
    rcases h50o with - | h50 <;>
    rcases h200o with - | h200 <;>
    rcases hadxo with - | hadx <;>
    rcases dhO with - | dh <;>
    cases st <;>
    simp only [trendStrategy, getHTFTrendState, holdSignal] <;>
    (try split_ifs) <;>
    (try simp_all)

/-- C6 witness: a concrete FLAT context satisfying all entry conditions
produces the ENTRY signal. -/
theorem trendStrategy_entry_iff_witness :
    trendStrategy demoBar2
        { ema50 := some 100, ema200 := some 90, adx := some 25 }
        { ema20 := some 7, ema50 := some 6, adx := some 26, adx_1h_series := none,
          atr := none, donchianHigh := some 7 }
        PositionState.FLAT =
      { type := SignalType.ENTRY, side := some PositionSide.LONG,
        reason := some TradeReason.HTF_BULL_BREAKOUT_CONFIRMED } :=
  (trendStrategy_entry_iff demoBar2
    { ema50 := some 100, ema200 := some 90, adx := some 25 }
    { ema20 := some 7, ema50 := some 6, adx := some 26, adx_1h_series := none,
      atr := none, donchianHigh := some 7 }
    PositionState.FLAT).1.mpr
    ⟨rfl, 7, 6, 26, 7, 100, 90, 25, rfl, rfl, rfl, rfl, rfl, rfl, rfl,
      by decide, by decide, by decide, by decide, by decide⟩

/-- Payload of the UPDATE_STOP action (all fields optional). -/
structure UpdateStopPayload where
  stopLoss : Option Rat
  trailingStop : Option Rat
  isTrailingActive : Option Bool
  maxUnrealizedR : Option Rat
  trailingMode : Option TrailingMode
deriving DecidableEq, Repr

/-- Actions of the position store (core/state/positionStore.ts). -/
inductive PositionAction where
  | OPEN_POSITION (side : PositionSide) (entryPrice stopLoss size : Rat)
      (entryTime : Int) (reason : TradeReason)
  | UPDATE_STOP (payload : UpdateStopPayload) (reason : TradeReason)
  | CLOSE_POSITION (exitPrice : Rat) (exitTime : Int) (reason : TradeReason)
  | START_CLOSING
deriving DecidableEq, Repr

/-- Mutable state of the `PositionStore` class: current position and FSM
state. -/
structure StoreState where
  position : Option Position
  state : PositionState
deriving DecidableEq, Repr

/-- Transcription of `PositionStore.dispatch`.  The `throw` on OPEN_POSITION
in a non-FLAT state is modelled as `Except.error`; the silent early returns
leave the store unchanged. -/
def dispatch (s : StoreState) (a : PositionAction) : Except String StoreState :=
  match a with
  | PositionAction.OPEN_POSITION side entryPrice stopLoss size entryTime reason =>
    if s.position.isSome ∨ s.state ≠ PositionState.FLAT then
      Except.error "Position already exists or state is not FLAT"
    else
      Except.ok
        { position := some
            { side := side, entryPrice := entryPrice, initialStopLoss := stopLoss,
              stopLoss := stopLoss, trailingStop := none, size := size,
              entryTime := entryTime, isTrailingActive := false, maxUnrealizedR := 0,
              trailingMode := none, reason := some reason },
          state := PositionState.OPEN }
  | PositionAction.UPDATE_STOP payload _ =>
    match s.position with
    | none => Except.ok s
    | some p =>
      if s.state ≠ PositionState.OPEN then Except.ok s
      else
        Except.ok
          { position := some
              { p with
                stopLoss := payload.stopLoss.getD p.stopLoss,
                trailingStop := payload.trailingStop.or p.trailingStop,
                isTrailingActive := payload.isTrailingActive.getD p.isTrailingActive,
                maxUnrealizedR := payload.maxUnrealizedR.getD p.maxUnrealizedR,
                trailingMode := payload.trailingMode.or p.trailingMode },
            state := s.state }
  | PositionAction.START_CLOSING =>
    if s.state = PositionState.OPEN then
      Except.ok { position := s.position, state := PositionState.CLOSING }
    else Except.ok s
  | PositionAction.CLOSE_POSITION _ _ _ =>
    match s.position with
    | none => Except.ok s
    | some _ => Except.ok { position := none, state := PositionState.FLAT }

/-- Concrete open store used as counterexample input. -/
def demoOpenPosition : Position :=
  { side := PositionSide.LONG, entryPrice := 100, initialStopLoss := 99, stopLoss := 99,
    trailingStop := some 99, size := 100, entryTime := 1000, isTrailingActive := false,
    maxUnrealizedR := 0, trailingMode := none, reason := none }

/-- Concrete position store holding `demoOpenPosition` in state OPEN. -/
def demoOpenStore : StoreState :=
  { position := some demoOpenPosition, state := PositionState.OPEN }

/-- C3 counterexample.  Dispatching UPDATE_STOP with `stopLoss = 50` and
`trailingStop = 50` to an OPEN LONG position whose stops are at 99 is not
rejected: the store accepts the action and lowers both stops to 50. -/
theorem dispatch_lowers_stop :
    dispatch demoOpenStore
        (PositionAction.UPDATE_STOP
          { stopLoss := some 50, trailingStop := some 50, isTrailingActive := none,
            maxUnrealizedR := none, trailingMode := none }
          TradeReason.TRAILING_STOP) =
      Except.ok
        { position := some { demoOpenPosition with stopLoss := 50, trailingStop := some 50 },
          state := PositionState.OPEN } ∧
    (50 : Rat) < demoOpenPosition.stopLoss := by
  constructor
  · rfl
  · decide

/-- C3 (amended).  UPDATE_STOP dispatched while the state is OPEN applies
every provided payload field unconditionally — the store itself performs no
monotonicity check, so a payload carrying a lower `stopLoss` or
`trailingStop` does lower the position's stop; stop monotonicity is not
enforced by the position store. -/
theorem dispatch_update_stop_unconditional (s : StoreState) (p : Position)
    (payload : UpdateStopPayload) (r : TradeReason)
    (hpos : s.position = some p) (hstate : s.state = PositionState.OPEN) :
    dispatch s (PositionAction.UPDATE_STOP payload r) =
      Except.ok
        { position := some
            { p with
              stopLoss := payload.stopLoss.getD p.stopLoss,
              trailingStop := payload.trailingStop.or p.trailingStop,
              isTrailingActive := payload.isTrailingActive.getD p.isTrailingActive,
              maxUnrealizedR := payload.maxUnrealizedR.getD p.maxUnrealizedR,
              trailingMode := payload.trailingMode.or p.trailingMode },
          state := PositionState.OPEN } := by
  unfold dispatch
  rw [hpos]
  simp [hstate]

/-- C3 amended-theorem witness at the concrete counterexample input. -/
theorem dispatch_update_stop_unconditional_witness :
    dispatch demoOpenStore
        (PositionAction.UPDATE_STOP
          { stopLoss := some 50, trailingStop := none, isTrailingActive := none,
            maxUnrealizedR := none, trailingMode := none }
          TradeReason.TRAILING_STOP) =
      Except.ok
        { position := some
            { demoOpenPosition with
              stopLoss := (some (50 : Rat)).getD demoOpenPosition.stopLoss,
              trailingStop := Option.or none demoOpenPosition.trailingStop,
              isTrailingActive := (none : Option Bool).getD demoOpenPosition.isTrailingActive,
              maxUnrealizedR := (none : Option Rat).getD demoOpenPosition.maxUnrealizedR,
              trailingMode := Option.or none demoOpenPosition.trailingMode },
          state := PositionState.OPEN } :=
  dispatch_update_stop_unconditional demoOpenStore demoOpenPosition
    { stopLoss := some 50, trailingStop := none, isTrailingActive := none,
      maxUnrealizedR := none, trailingMode := none }
    TradeReason.TRAILING_STOP rfl rfl

/-- C9.  OPEN_POSITION dispatched while a position exists or the state is not
FLAT raises the fatal error; UPDATE_STOP and CLOSE_POSITION dispatched while
FLAT with no position are silently ignored and leave the store unchanged. -/
theorem dispatch_guards (s : StoreState) :
    (∀ side entryPrice stopLoss size entryTime reason,
      s.position ≠ none ∨ s.state ≠ PositionState.FLAT →
        dispatch s (PositionAction.OPEN_POSITION side entryPrice stopLoss size
          entryTime reason) =
          Except.error "Position already exists or state is not FLAT") ∧
    (∀ payload reason, s.position = none → s.state = PositionState.FLAT →
      dispatch s (PositionAction.UPDATE_STOP payload reason) = Except.ok s) ∧
    (∀ exitPrice exitTime reason, s.position = none → s.state = PositionState.FLAT →
      dispatch s (PositionAction.CLOSE_POSITION exitPrice exitTime reason) =
        Except.ok s) := by
  refine ⟨?_, ?_, ?_⟩
  · intro side entryPrice stopLoss size entryTime reason h
    unfold dispatch
    have hcond : s.position.isSome ∨ s.state ≠ PositionState.FLAT := by
      rcases h with h | h
      · exact Or.inl (Option.isSome_iff_ne_none.mpr h)
      · exact Or.inr h
    simp [hcond]
  · intro payload reason hpos hstate
    unfold dispatch
    rw [hpos]
  · intro exitPrice exitTime reason hpos hstate
    unfold dispatch
    rw [hpos]

/-- C9 witness: concrete instances of all three guard behaviours. -/
theorem dispatch_guards_witness :
    dispatch demoOpenStore
        (PositionAction.OPEN_POSITION PositionSide.LONG 100 99 100 1000
          TradeReason.HTF_BULL_BREAKOUT_CONFIRMED) =
      Except.error "Position already exists or state is not FLAT" ∧
    dispatch { position := none, state := PositionState.FLAT }
        (PositionAction.UPDATE_STOP
          { stopLoss := some 100, trailingStop := none, isTrailingActive := none,
            maxUnrealizedR := none, trailingMode := none }
          TradeReason.TRAILING_STOP) =
      Except.ok { position := none, state := PositionState.FLAT } ∧
    dispatch { position := none, state := PositionState.FLAT }
        (PositionAction.CLOSE_POSITION 101 2000 TradeReason.MANUAL_EXIT) =
      Except.ok { position := none, state := PositionState.FLAT } :=
  ⟨(dispatch_guards demoOpenStore).1 PositionSide.LONG 100 99 100 1000
      TradeReason.HTF_BULL_BREAKOUT_CONFIRMED (Or.inl (by decide)),
   (dispatch_guards { position := none, state := PositionState.FLAT }).2.1 _ _ rfl rfl,
   (dispatch_guards { position := none, state := PositionState.FLAT }).2.2 101 2000
      TradeReason.MANUAL_EXIT rfl rfl⟩

/-- Risk decision action. -/
inductive RiskAction where
  | EXIT
  | NONE
deriving DecidableEq, Repr

/-- Risk decision (types.ts `RiskDecision`). -/
structure RiskDecision where
  action : RiskAction
  reason : Option TradeReason
deriving DecidableEq, Repr

/-- Trailing-stop update returned by the risk manager
(core/risk/riskManager.ts `TrailingStopUpdate`). -/
structure TrailingStopUpdate where
  shouldUpdate : Bool
  stopLoss : Option Rat
  trailingStop : Option Rat
  isTrailingActive : Option Bool
  maxUnrealizedR : Option Rat
  trailingMode : Option TrailingMode
deriving DecidableEq, Repr

/-- The `{ shouldUpdate: false }` literal returned on every early exit. -/
def noUpdate : TrailingStopUpdate :=
  { shouldUpdate := false, stopLoss := none, trailingStop := none,
    isTrailingActive := none, maxUnrealizedR := none, trailingMode := none }

/-- Result pair of `riskManager`. -/
structure RiskResult where
  decision : RiskDecision
  trailingUpdate : TrailingStopUpdate
deriving DecidableEq, Repr

/-- Transcription of `calculateUnrealizedR` (core/risk/riskManager.ts). -/
def calculateUnrealizedR (position : Position) (currentPrice : Rat) : Rat :=
  match position.side with
  | PositionSide.LONG =>
    let unrealizedPnL := (currentPrice - position.entryPrice) * position.size
    let initialRisk := (position.entryPrice - position.initialStopLoss) * position.size
    if 0 < initialRisk then unrealizedPnL / initialRisk else 0
  | PositionSide.SHORT => 0

/-- Transcription of `updateTrailingStop` (core/risk/riskManager.ts): only
moves the trailing stop up to the chosen EMA, never down. -/
def updateTrailingStop (position : Position) (ema20_1h ema50_1h : Option Rat)
    (currentPrice : Rat) : TrailingStopUpdate :=
  if position.isTrailingActive then
    let trailingMode := position.trailingMode.getD TrailingMode.EMA20
    let trailingBase :=
      match trailingMode with
      | TrailingMode.EMA50 => ema50_1h
      | TrailingMode.EMA20 => ema20_1h
    match trailingBase with
    | none => noUpdate
    | some base =>
      let currentTrailingStop := jsOrQ position.trailingStop position.entryPrice
      if currentTrailingStop < base then
        { noUpdate with shouldUpdate := true, trailingStop := some base }
      else noUpdate
  else noUpdate

/-- Transcription of `checkStopLossProgression` (core/risk/riskManager.ts):
three-stage stop progression with optional profit lock. -/
def checkStopLossProgression (position : Position)
    (currentPrice breakEvenR trailingActivationR : Rat)
    (profitLockR : Option Rat) : TrailingStopUpdate :=
  let unrealizedR := calculateUnrealizedR position currentPrice
  let maxR := max position.maxUnrealizedR unrealizedR
  if position.isTrailingActive then
    let baseMode := position.trailingMode.getD TrailingMode.EMA20
    let trailingMode :=
      match profitLockR with
      | some pl => if pl ≠ 0 ∧ pl ≤ maxR then TrailingMode.EMA50 else baseMode
      | none => baseMode
    { shouldUpdate := decide (position.maxUnrealizedR < maxR) || decide (trailingMode ≠ baseMode),
      stopLoss := none, trailingStop := none, isTrailingActive := none,
      maxUnrealizedR := some maxR, trailingMode := some trailingMode }
  else if breakEvenR ≤ unrealizedR ∧ unrealizedR < trailingActivationR then
    if position.stopLoss < position.entryPrice then
      { shouldUpdate := true, stopLoss := some position.entryPrice, trailingStop := none,
        isTrailingActive := some false, maxUnrealizedR := some maxR, trailingMode := none }
    else
      { shouldUpdate := decide (position.maxUnrealizedR < maxR), stopLoss := none,
        trailingStop := none, isTrailingActive := none, maxUnrealizedR := some maxR,
        trailingMode := none }
  else if trailingActivationR ≤ unrealizedR then
    { shouldUpdate := true, stopLoss := some position.entryPrice,
      trailingStop := some position.entryPrice, isTrailingActive := some true,
      maxUnrealizedR := some maxR, trailingMode := some TrailingMode.EMA20 }
  else
    { shouldUpdate := decide (position.maxUnrealizedR < maxR), stopLoss := none,
      trailingStop := none, isTrailingActive := none, maxUnrealizedR := some maxR,
      trailingMode := none }

/-- Transcription of the fall-through part of `riskManager` (steps 3 and 4:
stop-loss progression followed by the EMA trailing update). -/
def riskManagerProgress (position : Position) (bar : Kline)
    (ltfIndicator : LTFIndicatorData) (cfg : RiskConfig) : TrailingStopUpdate :=
  let progressionUpdate := checkStopLossProgression position bar.close cfg.breakEvenR
    cfg.trailingActivationR cfg.profitLockR
  let isTrailingActive :=
    position.isTrailingActive || decide (progressionUpdate.isTrailingActive = some true)
  if isTrailingActive then
    let initialTrailingStop :=
      if progressionUpdate.isTrailingActive = some true then
        jsOrQ progressionUpdate.trailingStop position.entryPrice
      else
        jsOrQ position.trailingStop position.entryPrice
    let trailingMode := (progressionUpdate.trailingMode.or position.trailingMode).getD
      TrailingMode.EMA20
    let tempPosition :=
      { position with
        isTrailingActive := true,
        trailingStop := some initialTrailingStop,
        trailingMode := some trailingMode }
    let emaUpdate := updateTrailingStop tempPosition ltfIndicator.ema20 ltfIndicator.ema50
      bar.close
    let finalTrailingStop := jsOrQ emaUpdate.trailingStop initialTrailingStop
    { shouldUpdate := progressionUpdate.shouldUpdate || emaUpdate.shouldUpdate,
      stopLoss := some finalTrailingStop,
      trailingStop := some finalTrailingStop,
      isTrailingActive := some true,
      maxUnrealizedR := some (jsOrQ progressionUpdate.maxUnrealizedR position.maxUnrealizedR),
      trailingMode := some trailingMode }
  else if progressionUpdate.shouldUpdate then
    { shouldUpdate := true,
      stopLoss := progressionUpdate.stopLoss,
      trailingStop := none,
      isTrailingActive := some false,
      maxUnrealizedR := some (jsOrQ progressionUpdate.maxUnrealizedR position.maxUnrealizedR),
      trailingMode := none }
  else noUpdate

/-- Exit checks of `riskManager` (LONG stop-hit branch, including the trend
exhaustion filter on a trailing-stop touch). -/
def riskExitReason (position : Position) (bar : Kline)
    (ltfIndicator : LTFIndicatorData) (cfg : RiskConfig) : Option TradeReason :=
  if position.side = PositionSide.LONG ∧ bar.low ≤ position.stopLoss then
    if position.isTrailingActive &&
        (match position.trailingStop with
         | some t => decide (t ≠ 0) && decide (bar.low ≤ t)
         | none => false) then
      if jsTruthyQ cfg.trendExhaustADX && jsTruthyNat cfg.trendExhaustBars &&
          ltfIndicator.adx_1h_series.isSome then
        if isTrendExhausted (ltfIndicator.adx_1h_series.getD [])
            (cfg.trendExhaustADX.getD 0) (cfg.trendExhaustBars.getD 0) then
          some TradeReason.TRAILING_STOP_HIT
        else none
      else some TradeReason.TRAILING_STOP_HIT
    else if position.entryPrice ≤ position.stopLoss ∧ bar.low ≤ position.stopLoss then
      some TradeReason.STOP_LOSS_BREAK_EVEN
    else some TradeReason.STOP_LOSS_INITIAL
  else none

/-- Transcription of `riskManager` (core/risk/riskManager.ts): every early
exit returns `{ shouldUpdate: false }`, otherwise decision NONE with the
progression update. -/
def riskManager (position : Position) (bar : Kline)
    (ltfIndicator : LTFIndicatorData) (cfg : RiskConfig) : RiskResult :=
  match riskExitReason position bar ltfIndicator cfg with
  | some r =>
    { decision := { action := RiskAction.EXIT, reason := some r },
      trailingUpdate := noUpdate }
  | none =>
    { decision := { action := RiskAction.NONE, reason := none },
      trailingUpdate := riskManagerProgress position bar ltfIndicator cfg }

/-- C10.  Whenever the risk manager decides EXIT (any stop reason), the
trailing update returned alongside is exactly `{ shouldUpdate: false }`: no
stop, trailing-stop, trailing-mode or max-unrealized-R value is carried, so
the position is not modified on the exit bar. -/
theorem riskManager_exit_resets_update (position : Position) (bar : Kline)
    (ltf : LTFIndicatorData) (cfg : RiskConfig)
    (h : (riskManager position bar ltf cfg).decision.action = RiskAction.EXIT) :
    (riskManager position bar ltf cfg).trailingUpdate =
      { shouldUpdate := false, stopLoss := none, trailingStop := none,
        isTrailingActive := none, maxUnrealizedR := none, trailingMode := none } := by
  unfold riskManager at h ⊢
  rcases he : riskExitReason position bar ltf cfg with - | r
  · rw [he] at h
    simp at h
  · rfl

/-- Concrete stage-1 inputs on which the risk manager exits. -/
def c10Position : Position :=
  { side := PositionSide.LONG, entryPrice := 100, initialStopLoss := 99, stopLoss := 99,
    trailingStop := none, size := 100, entryTime := 1000, isTrailingActive := false,
    maxUnrealizedR := 0, trailingMode := none, reason := none }

/-- Bar whose low hits the initial stop of `c10Position`. -/
def c10Bar : Kline := { openTime := 0, closeTime := 3600, high := 199/2, low := 98, close := 197/2 }

/-- LTF record for the C10 witness. -/
def c10Ltf : LTFIndicatorData :=
  { ema20 := some 100, ema50 := some 99, adx := some 20, adx_1h_series := none,
    atr := none, donchianHigh := none }

/-- Risk configuration with the v5 defaults. -/
def c10Cfg : RiskConfig :=
  { maxRiskPerTrade := 1/100, initialStopPct := 1/100, breakEvenR := 1,
    trailingActivationR := 2, trendExhaustADX := some 20, trendExhaustBars := some 3,
    profitLockR := some 4 }

/-- C10 witness: a concrete initial-stop exit carries the empty update. -/
theorem riskManager_exit_resets_update_witness :
    (riskManager c10Position c10Bar c10Ltf c10Cfg).decision.action = RiskAction.EXIT ∧
    (riskManager c10Position c10Bar c10Ltf c10Cfg).trailingUpdate =
      { shouldUpdate := false, stopLoss := none, trailingStop := none,
        isTrailingActive := none, maxUnrealizedR := none, trailingMode := none } :=
  ⟨by decide, riskManager_exit_resets_update c10Position c10Bar c10Ltf c10Cfg (by decide)⟩

/-- C1.  For an OPEN LONG stage-3 position (trailing active, active stop
equal to the positive trailing stop) whose bar low touches the trailing
stop, with the exhaustion filter configured and an ADX history present:
the risk manager exits with TRAILING_STOP_HIT exactly when the history is
exhausted; otherwise it returns decision NONE and still runs the
trailing-stop progression on that same bar, so the trailing stop advances to
the chosen EMA (EMA20 by default) when that EMA lies above the touched
stop. -/
theorem riskManager_trailing_exhaustion_filter
    (position : Position) (bar : Kline) (ltf : LTFIndicatorData) (cfg : RiskConfig)
    (ts τ : Rat) (k : Nat) (A : List Rat)
    (hside : position.side = PositionSide.LONG)
    (hact : position.isTrailingActive = true)
    (hts : position.trailingStop = some ts)
    (hts0 : 0 < ts)
    (hstop : position.stopLoss = ts)
    (hlow : bar.low ≤ ts)
    (hτ : cfg.trendExhaustADX = some τ) (hτ0 : τ ≠ 0)
    (hk : cfg.trendExhaustBars = some k) (hk0 : k ≠ 0)
    (hA : ltf.adx_1h_series = some A) :
    (isTrendExhausted A τ k = true →
      riskManager position bar ltf cfg =
        { decision :=
            { action := RiskAction.EXIT, reason := some TradeReason.TRAILING_STOP_HIT },
          trailingUpdate := noUpdate }) ∧
    (isTrendExhausted A τ k = false →
      (riskManager position bar ltf cfg).decision =
          { action := RiskAction.NONE, reason := none } ∧
      (riskManager position bar ltf cfg).trailingUpdate =
          riskManagerProgress position bar ltf cfg) ∧
    (isTrendExhausted A τ k = false → cfg.profitLockR = none →
      position.trailingMode = none →
      ∀ e, ltf.ema20 = some e → ts < e →
        (riskManager position bar ltf cfg).trailingUpdate.trailingStop = some e ∧
        (riskManager position bar ltf cfg).trailingUpdate.shouldUpdate = true) := by
  have hreason : riskExitReason position bar ltf cfg =
      (if isTrendExhausted A τ k then some TradeReason.TRAILING_STOP_HIT else none) := by
    unfold riskExitReason
    rw [hside, hstop, hts, hτ, hk, hA]
    simp [hact, hlow, jsTruthyQ, jsTruthyNat, hτ0, hk0, hts0.ne']
  refine ⟨?_, ?_, ?_⟩
  · intro hex
    unfold riskManager
    rw [hreason]
    simp [hex]
  · intro hex
    unfold riskManager
    rw [hreason]
    simp [hex]
  · intro hex hpl htm e he hlt
    have hupd : (riskManager position bar ltf cfg).trailingUpdate =
        riskManagerProgress position bar ltf cfg := by
      unfold riskManager
      rw [hreason]
      simp [hex]
    rw [hupd]
    have he0 : e ≠ 0 := (lt_trans hts0 hlt).ne'
    unfold riskManagerProgress checkStopLossProgression updateTrailingStop
    rw [hpl, htm]
    simp [hact, hts, jsOrQ, hts0.ne', hlt, he, he0]

/-- Concrete stage-3 position for the C1 witness. -/
def c1Position : Position :=
  { side := PositionSide.LONG, entryPrice := 100, initialStopLoss := 99, stopLoss := 104,
    trailingStop := some 104, size := 100, entryTime := 0, isTrailingActive := true,
    maxUnrealizedR := 4, trailingMode := none, reason := none }

/-- Bar whose low touches the trailing stop of `c1Position`. -/
def c1Bar : Kline := { openTime := 7200, closeTime := 10800, high := 105, low := 104, close := 105 }

/-- LTF record with an exhausted ADX history. -/
def c1Ltf : LTFIndicatorData :=
  { ema20 := some 105, ema50 := some 103, adx := some 18,
    adx_1h_series := some [23, 22, 21, 19], atr := none, donchianHigh := none }

/-- Risk configuration with the exhaustion filter enabled. -/
def c1Cfg : RiskConfig :=
  { maxRiskPerTrade := 1/100, initialStopPct := 1/100, breakEvenR := 1,
    trailingActivationR := 2, trendExhaustADX := some 20, trendExhaustBars := some 3,
    profitLockR := none }

/-- C1 witness: on a concrete exhausted history the touched trailing stop
produces the TRAILING_STOP_HIT exit. -/
theorem riskManager_trailing_exhaustion_filter_witness :
    isTrendExhausted [23, 22, 21, 19] 20 3 = true ∧
    riskManager c1Position c1Bar c1Ltf c1Cfg =
      { decision :=
          { action := RiskAction.EXIT, reason := some TradeReason.TRAILING_STOP_HIT },
        trailingUpdate := noUpdate } :=
  ⟨by decide,
   (riskManager_trailing_exhaustion_filter c1Position c1Bar c1Ltf c1Cfg 104 20 3
      [23, 22, 21, 19] rfl rfl rfl (by decide) rfl (by decide) rfl (by decide) rfl
      (by decide) rfl).1 (by decide)⟩

/-- Trade record appended by the trade logger (types.ts `TradeRecord`). -/
structure TradeRecord where
  side : PositionSide
  entryPrice : Rat
  entryTime : Int
  exitPrice : Rat
  exitTime : Int
  size : Rat
  pnl : Rat
  commission : Rat
  slippage : Rat
  equityAfterTrade : Rat
  reason : TradeReason
deriving DecidableEq, Repr

/-- Transcription of `calculateDynamicSlippageRate` (utils/slippageUtils.ts)
with the default ATR multiplier 0.5 and the 1% cap. -/
def calculateDynamicSlippageRate (bar : Kline) (atr : Option Rat)
    (baseSlippageRate : Rat) : Rat :=
  match atr with
  | none => baseSlippageRate
  | some a =>
    if a ≤ 0 then baseSlippageRate
    else min (baseSlippageRate + a / bar.close * (1/2)) (1/100)

/-- Transcription of `applySlippage` (utils/slippageUtils.ts). -/
def applySlippage (price slippageRate : Rat) (side : PositionSide) : Rat :=
  match side with
  | PositionSide.LONG => price * (1 - slippageRate)
  | PositionSide.SHORT => price * (1 + slippageRate)

/-- Transcription of `calculateSlippageAmount` (utils/slippageUtils.ts). -/
def calculateSlippageAmount (price priceWithSlippage size : Rat) : Rat :=
  |priceWithSlippage - price| * size

/-- Transcription of `BacktestEngine.executeExit` combined with
`TradeLogger.logExit`, which receives the commission, the slippage amount
and the slippage-adjusted exit price and builds the trade record.  The
commission is computed from the raw `bar.close`, while the exit price is
slippage-adjusted; `logExit` subtracts both the commission and the slippage
amount from the price-difference PnL. -/
def executeExitTrade (position : Position) (bar : Kline)
    (commissionRate slippageRate : Rat) (atr : Option Rat)
    (equityBefore : Rat) (reason : TradeReason) : TradeRecord :=
  let entryValue := position.entryPrice * position.size
  let exitValue := bar.close * position.size
  let commission := (entryValue + exitValue) * commissionRate
  let exitSlippageRate := calculateDynamicSlippageRate bar atr slippageRate
  let exitPriceWithSlippage := applySlippage bar.close exitSlippageRate position.side
  let slippage := calculateSlippageAmount bar.close exitPriceWithSlippage position.size
  let actualExitPrice := jsOrQ (some exitPriceWithSlippage) bar.close
  let pnl :=
    match position.side with
    | PositionSide.LONG => actualExitPrice * position.size - entryValue
    | PositionSide.SHORT => entryValue - actualExitPrice * position.size
  let finalPnL := pnl - commission - slippage
  { side := position.side, entryPrice := position.entryPrice,
    entryTime := position.entryTime, exitPrice := actualExitPrice,
    exitTime := bar.closeTime, size := position.size, pnl := finalPnL,
    commission := commission, slippage := slippage,
    equityAfterTrade := equityBefore + finalPnL, reason := reason }

/-- Concrete LONG position for the C8 exit accounting. -/
def c8Position : Position :=
  { side := PositionSide.LONG, entryPrice := 100, initialStopLoss := 99, stopLoss := 99,
    trailingStop := none, size := 1, entryTime := 0, isTrailingActive := false,
    maxUnrealizedR := 0, trailingMode := none, reason := none }

/-- Exit bar closing at 100 for the C8 accounting. -/
def c8Bar : Kline := { openTime := 0, closeTime := 3600, high := 101, low := 99, close := 100 }

/-- C8 counterexample.  With entry 100, size 1, close 100, commission rate
0.1% and slippage rate 1%, the code charges commission on the raw close
(0.2), not on the slippage-adjusted exit price 99 (which would give 0.199),
and the recorded pnl additionally subtracts the slippage cost, so neither
the claimed commission formula nor the claimed pnl formula holds. -/
theorem executeExit_commission_counterexample :
    (executeExitTrade c8Position c8Bar (1/1000) (1/100) none 10000
        TradeReason.STOP_LOSS_INITIAL).exitPrice = 99 ∧
    (executeExitTrade c8Position c8Bar (1/1000) (1/100) none 10000
        TradeReason.STOP_LOSS_INITIAL).commission = 1/5 ∧
    (executeExitTrade c8Position c8Bar (1/1000) (1/100) none 10000
        TradeReason.STOP_LOSS_INITIAL).commission ≠
      (c8Position.entryPrice * c8Position.size +
        (executeExitTrade c8Position c8Bar (1/1000) (1/100) none 10000
          TradeReason.STOP_LOSS_INITIAL).exitPrice * c8Position.size) * (1/1000) ∧
    (executeExitTrade c8Position c8Bar (1/1000) (1/100) none 10000
        TradeReason.STOP_LOSS_INITIAL).pnl ≠
      ((executeExitTrade c8Position c8Bar (1/1000) (1/100) none 10000
          TradeReason.STOP_LOSS_INITIAL).exitPrice - c8Position.entryPrice) *
          c8Position.size -
        (executeExitTrade c8Position c8Bar (1/1000) (1/100) none 10000
          TradeReason.STOP_LOSS_INITIAL).commission := by
  unfold executeExitTrade calculateDynamicSlippageRate applySlippage calculateSlippageAmount
    jsOrQ c8Position c8Bar
  norm_num

/-- C8 (amended).  On every exit of a LONG position with positive close and
effective slippage rate below 1: the exit price is `bar.close · (1 − s)`
with `s` the (ATR-adjusted) slippage rate; the commission equals
`(entry_price · size + bar.close · size) · commission_rate`, computed from
the raw close rather than the slipped exit price; and the recorded pnl is
`(exit_price − entry_price) · size − commission − slippage_cost`, where the
slippage cost `|exit_price − bar.close| · size` is subtracted in addition to
the commission. -/
theorem executeExit_accounting (position : Position) (bar : Kline)
    (commissionRate slippageRate : Rat) (atr : Option Rat)
    (equityBefore : Rat) (reason : TradeReason)
    (hside : position.side = PositionSide.LONG)
    (hclose : 0 < bar.close)
    (hs : calculateDynamicSlippageRate bar atr slippageRate < 1) :
    (executeExitTrade position bar commissionRate slippageRate atr equityBefore
        reason).exitPrice =
      bar.close * (1 - calculateDynamicSlippageRate bar atr slippageRate) ∧
    (executeExitTrade position bar commissionRate slippageRate atr equityBefore
        reason).commission =
      (position.entryPrice * position.size + bar.close * position.size) * commissionRate ∧
    (executeExitTrade position bar commissionRate slippageRate atr equityBefore
        reason).slippage =
      |(executeExitTrade position bar commissionRate slippageRate atr equityBefore
          reason).exitPrice - bar.close| * position.size ∧
    (executeExitTrade position bar commissionRate slippageRate atr equityBefore
        reason).pnl =
      ((executeExitTrade position bar commissionRate slippageRate atr equityBefore
          reason).exitPrice - position.entryPrice) * position.size -
        (executeExitTrade position bar commissionRate slippageRate atr equityBefore
          reason).commission -
        (executeExitTrade position bar commissionRate slippageRate atr equityBefore
          reason).slippage ∧
    (executeExitTrade position bar commissionRate slippageRate atr equityBefore
        reason).equityAfterTrade =
      equityBefore +
        (executeExitTrade position bar commissionRate slippageRate atr equityBefore
          reason).pnl := by
  have hone : 0 < 1 - calculateDynamicSlippageRate bar atr slippageRate := by linarith
  have hne : bar.close * (1 - calculateDynamicSlippageRate bar atr slippageRate) ≠ 0 :=
    (mul_pos hclose hone).ne'
  unfold executeExitTrade
  rw [hside]
  simp only [applySlippage, calculateSlippageAmount, jsOrQ, hne, if_false]
  exact ⟨trivial, trivial, trivial, by ring, trivial⟩

/-- C8 amended-theorem witness at the concrete counterexample input. -/
theorem executeExit_accounting_witness :
    (executeExitTrade c8Position c8Bar (1/1000) (1/100) none 10000
        TradeReason.STOP_LOSS_INITIAL).exitPrice =
      c8Bar.close * (1 - calculateDynamicSlippageRate c8Bar none (1/100)) ∧
    (executeExitTrade c8Position c8Bar (1/1000) (1/100) none 10000
        TradeReason.STOP_LOSS_INITIAL).commission =
      (c8Position.entryPrice * c8Position.size + c8Bar.close * c8Position.size) * (1/1000) ∧
    (executeExitTrade c8Position c8Bar (1/1000) (1/100) none 10000
        TradeReason.STOP_LOSS_INITIAL).slippage =
      |(executeExitTrade c8Position c8Bar (1/1000) (1/100) none 10000
          TradeReason.STOP_LOSS_INITIAL).exitPrice - c8Bar.close| * c8Position.size ∧
    (executeExitTrade c8Position c8Bar (1/1000) (1/100) none 10000
        TradeReason.STOP_LOSS_INITIAL).pnl =
      ((executeExitTrade c8Position c8Bar (1/1000) (1/100) none 10000
          TradeReason.STOP_LOSS_INITIAL).exitPrice - c8Position.entryPrice) *
          c8Position.size -
        (executeExitTrade c8Position c8Bar (1/1000) (1/100) none 10000
          TradeReason.STOP_LOSS_INITIAL).commission -
        (executeExitTrade c8Position c8Bar (1/1000) (1/100) none 10000
          TradeReason.STOP_LOSS_INITIAL).slippage ∧
    (executeExitTrade c8Position c8Bar (1/1000) (1/100) none 10000
        TradeReason.STOP_LOSS_INITIAL).equityAfterTrade =
      10000 +
        (executeExitTrade c8Position c8Bar (1/1000) (1/100) none 10000
          TradeReason.STOP_LOSS_INITIAL).pnl :=
  executeExit_accounting c8Position c8Bar (1/1000) (1/100) none 10000
    TradeReason.STOP_LOSS_INITIAL rfl (by norm_num [c8Bar])
    (by norm_num [calculateDynamicSlippageRate])
